import Mathlib

/-!
Shallow embedding of the OSDP file-transfer bridge
(`src/libosdp/src/file.rs` of Sympatron/libosdp-rs).

The bridge exposes four C-ABI callbacks (`raw_file_open`, `raw_file_read`,
`raw_file_write`, `raw_file_close`) over an `OsdpFile` context that owns an
optional file handle.  We model:

* machine integers as `Int`/`Nat` with explicit wrap-around
  (`i32` casts and `as u64`/`as usize` reinterpretation),
* the caller buffer as a `List Nat` whose length is its allocated capacity,
* `std::ptr::copy_nonoverlapping` as an `Option`-valued copy: `none` when the
  requested count exceeds either buffer (an out-of-bounds copy, which is
  undefined behaviour in the source),
* the `OffsetRead` trait (positional `pread`/`pwrite`) as a record of
  oracles, with concrete instantiations over explicit file contents — in
  particular a read-only one matching the handles `raw_file_open` actually
  produces via `File::open`,
* a Rust `unwrap` on a fallible call as `Option`: `none` models the panic.
-/

namespace Osdp

/-- Wrap-around of the two's-complement 32-bit cast `as i32` of an
unsigned value (`usize as i32` / `u64 as i32` in the source). -/
def int32OfNat (n : Nat) : Int :=
  let m : Nat := n % 2 ^ 32
  if m < 2 ^ 31 then (m : Int) else (m : Int) - 2 ^ 32

/-- Reinterpretation of an `i32` value as `u64`/`usize` (64-bit target):
sign-extension, i.e. reduction of the signed value modulo `2^64`.
This models both `offset as u64` and `size as usize` / `len as usize`. -/
def toU64 (x : Int) : Nat :=
  (x % (2 : Int) ^ 64).toNat

/-- Model of `std::ptr::copy_nonoverlapping src dst count` acting on whole
buffers: copies the first `count` bytes of `src` over the first `count` bytes
of `dst`.  When `count` exceeds either buffer's length the source performs an
out-of-bounds access (undefined behaviour), modelled as `none`. -/
def copy_nonoverlapping (src dst : List Nat) (count : Nat) : Option (List Nat) :=
  if count ≤ src.length ∧ count ≤ dst.length then
    some (src.take count ++ dst.drop count)
  else
    none

/-- The `OsdpFile` file-transfer context
(`pub struct OsdpFile { id, path, file, size }`).  The file handle carries no
data relevant to the model, so `Option Unit` stands for `Option<File>`;
`size : Nat` models the `usize` field. -/
structure OsdpFile where
  id : Int
  path : String
  file : Option Unit
  size : Nat
deriving Repr, DecidableEq

/-- `OsdpFile::new(id, path)`: a fresh inactive context, `file = None`,
`size = 0`; no oracle is consulted (no I/O). -/
def OsdpFile.new (id : Int) (path : String) : OsdpFile :=
  { id := id, path := path, file := none, size := 0 }

/-- The positional-I/O capability, mirroring the source's `OffsetRead` trait
(`pread(&self, buf, offset)` / `pwrite(&self, buf, offset)`).
`pread bufLen offset` returns the bytes placed into the front of a buffer of
length `bufLen` (`.error` is an I/O failure); `pwrite data offset` returns the
number of bytes written. -/
structure OffsetRead where
  pread : Nat → Nat → Except Unit (List Nat)
  pwrite : List Nat → Nat → Except Unit Nat

/-- `raw_file_open(data, file_id, size)`.  The filesystem outcomes are
explicit arguments: `openResult` is the result of `File::open(ctx.path)` and
`metadataLen` the result of `file.metadata().map(|m| m.len())`.  `sizePtr` is
the current value of the out-pointer `*size`.  The result is
`some (return value, updated context, updated *size)`; `none` models the
panic of `metadata().unwrap()`. -/
def raw_file_open (openResult : Except Unit Unit) (metadataLen : Except Unit Nat)
    (ctx : OsdpFile) (file_id : Int) (sizePtr : Int) :
    Option (Int × OsdpFile × Int) :=
  if ctx.file.isSome || file_id ≠ ctx.id then
    some (-1, ctx, sizePtr)
  else
    match openResult with
    | .error _ => some (-1, ctx, sizePtr)
    | .ok f =>
      match metadataLen with
      | .error _ => none
      | .ok len =>
        let ctx' : OsdpFile := { ctx with size := len % 2 ^ 64, file := some f }
        some (0, ctx', int32OfNat ctx'.size)

/-- `raw_file_read(data, buf, size, offset)`.  `fs` supplies the positional
read; `callerBuf` is the caller's output buffer (length = capacity).  The
scratch buffer is `vec![0u8; size as usize]`, filled in place by `pread`; the
returned `len` is the `Ok` count cast to `i32`, or `-1` on error, and the
source then unconditionally runs `copy_nonoverlapping(read_buf, buf,
len as usize)`.  Result: `some (return value, caller buffer afterwards)`,
or `none` when that copy is out of bounds (undefined behaviour). -/
def raw_file_read (fs : OffsetRead) (ctx : OsdpFile) (callerBuf : List Nat)
    (size offset : Int) : Option (Int × List Nat) :=
  if ctx.file.isNone then
    some (-1, callerBuf)
  else
    let bufLen := toU64 size
    let zeroBuf := List.replicate bufLen 0
    match fs.pread bufLen (toU64 offset) with
    | .ok data =>
      let read_buf := data ++ zeroBuf.drop data.length
      let len : Int := int32OfNat data.length
      match copy_nonoverlapping read_buf callerBuf (toU64 len) with
      | some buf' => some (len, buf')
      | none => none
    | .error _ =>
      let len : Int := -1
      match copy_nonoverlapping zeroBuf callerBuf (toU64 len) with
      | some buf' => some (len, buf')
      | none => none

/-- `raw_file_write(data, buf, size, offset)`.  The scratch buffer is
`vec![0u8; size as usize]`, filled by
`copy_nonoverlapping(buf, write_buf, size as usize)` from the caller's input
buffer, then handed to `pwrite` whole.  Result: `some` of the `i32` return
value (`Ok(len) => len as i32`, `Err => -1`), or `none` when the copy from the
caller's buffer is out of bounds (undefined behaviour). -/
def raw_file_write (fs : OffsetRead) (ctx : OsdpFile) (callerBuf : List Nat)
    (size offset : Int) : Option Int :=
  if ctx.file.isNone then
    some (-1)
  else
    let count := toU64 size
    match copy_nonoverlapping callerBuf (List.replicate count 0) count with
    | none => none
    | some write_buf =>
      match fs.pwrite write_buf (toU64 offset) with
      | .ok len => some (int32OfNat len)
      | .error _ => some (-1)

/-- `raw_file_close(data)`: fails with `-1` when no handle is present,
otherwise takes the handle out of the context and returns `0`. -/
def raw_file_close (ctx : OsdpFile) : Int × OsdpFile :=
  if ctx.file.isNone then
    (-1, ctx)
  else
    (0, { ctx with file := none })

/-- Positional read over concrete file contents: `read_at` returns the bytes
of `content` from `offset`, at most `bufLen` of them (zero bytes at or past
end of file). -/
def fsPread (content : List Nat) (bufLen offset : Nat) : List Nat :=
  (content.drop offset).take bufLen

/-- A hypothetical writable handle over the given contents: `pread` succeeds
with the standard positional semantics and `pwrite` reports the full count.
The bridge's own open (`File::open` in `raw_file_open`) only ever produces
read-only handles — see `readOnlyFileOps` — so this oracle is not realizable
through the bridge; it serves purely as a probe that distinguishes whether
the positional write is attempted at all. -/
def fileOps (content : List Nat) : OffsetRead where
  pread := fun bufLen offset => .ok (fsPread content bufLen offset)
  pwrite := fun data _offset => .ok data.length

/-- A handle as actually produced by the bridge's `raw_file_open`: the source
opens the path with `File::open`, which grants read-only access, so positional
reads succeed with the standard semantics while every positional write fails
(bad file descriptor / access denied on a read-only handle). -/
def readOnlyFileOps (content : List Nat) : OffsetRead where
  pread := fun bufLen offset => .ok (fsPread content bufLen offset)
  pwrite := fun _ _ => .error ()

/-- An `OffsetRead` whose positional operations always fail, modelling an
underlying I/O error (e.g. a device error). -/
def failOps : OffsetRead where
  pread := fun _ _ => .error ()
  pwrite := fun _ _ => .error ()

/-- A context on which an `open` has already succeeded: handle present and
`size` cached from open time. -/
def activeCtx : OsdpFile :=
  { id := 7, path := "/tmp/fw.bin", file := some (), size := 1024 }

/-- C10: for every id and path, `OsdpFile::new` yields a context with no file
handle and cached size 0, keeping the given id and path; the constructor
consults no filesystem oracle (performs no I/O). -/
theorem new_context_inactive_size_zero (i : Int) (p : String) :
    (OsdpFile.new i p).file = none ∧ (OsdpFile.new i p).size = 0 ∧
    (OsdpFile.new i p).id = i ∧ (OsdpFile.new i p).path = p := by
  refine ⟨rfl, rfl, rfl, rfl⟩

/-- C9: on every active context, a successful close releases the handle and
changes nothing else: the cached size, the id and the path keep their
values. -/
theorem close_releases_handle_only (ctx : OsdpFile) (h : ctx.file.isSome = true) :
    (raw_file_close ctx).1 = 0 ∧ (raw_file_close ctx).2.file = none ∧
    (raw_file_close ctx).2.size = ctx.size ∧ (raw_file_close ctx).2.id = ctx.id ∧
    (raw_file_close ctx).2.path = ctx.path := by
  cases hf : ctx.file with
  | none => rw [hf] at h; simp at h
  | some u => simp [raw_file_close, hf]

theorem close_releases_handle_only_witness :
    (raw_file_close activeCtx).1 = 0 ∧ (raw_file_close activeCtx).2.file = none ∧
    (raw_file_close activeCtx).2.size = activeCtx.size ∧
    (raw_file_close activeCtx).2.id = activeCtx.id ∧
    (raw_file_close activeCtx).2.path = activeCtx.path :=
  close_releases_handle_only activeCtx (by decide)

/-- C8: close is not idempotent in the sense of repeated success: on every
active context the first close returns 0 and takes the handle out of the
context, and an immediately following second close fails with the sentinel
and changes nothing (so no handle can be released twice). -/
theorem close_close_second_fails (ctx : OsdpFile) (h : ctx.file.isSome = true) :
    (raw_file_close ctx).1 = 0 ∧ (raw_file_close ctx).2.file = none ∧
    raw_file_close (raw_file_close ctx).2 = (-1, (raw_file_close ctx).2) := by
  cases hf : ctx.file with
  | none => rw [hf] at h; simp at h
  | some u => simp [raw_file_close, hf]

theorem close_close_second_fails_witness :
    (raw_file_close activeCtx).1 = 0 ∧ (raw_file_close activeCtx).2.file = none ∧
    raw_file_close (raw_file_close activeCtx).2 = (-1, (raw_file_close activeCtx).2) :=
  close_close_second_fails activeCtx (by decide)

/-- C7: on every inactive context, read, write and close all fail with the
sentinel for every oracle and all arguments; none of them is undefined
behaviour (no `none` result, i.e. no panic and no out-of-bounds access), and
the caller's buffer is returned untouched. -/
theorem inactive_context_ops_fail (fs : OffsetRead) (ctx : OsdpFile)
    (h : ctx.file = none) (buf : List Nat) (size offset : Int) :
    raw_file_read fs ctx buf size offset = some (-1, buf) ∧
    raw_file_write fs ctx buf size offset = some (-1) ∧
    raw_file_close ctx = (-1, ctx) := by
  refine ⟨?_, ?_, ?_⟩ <;> simp [raw_file_read, raw_file_write, raw_file_close, h]

theorem inactive_context_ops_fail_witness :
    raw_file_read failOps (OsdpFile.new 7 "/tmp/fw.bin") [0, 0] 2 0 = some (-1, [0, 0]) ∧
    raw_file_write failOps (OsdpFile.new 7 "/tmp/fw.bin") [0, 0] 2 0 = some (-1) ∧
    raw_file_close (OsdpFile.new 7 "/tmp/fw.bin") = (-1, OsdpFile.new 7 "/tmp/fw.bin") :=
  inactive_context_ops_fail failOps (OsdpFile.new 7 "/tmp/fw.bin") rfl [0, 0] 2 0

/-- C4: on every context whose open already succeeded (handle present), a
second open with any identifier fails with the sentinel, for every filesystem
outcome (so the filesystem is not consulted), and leaves the whole context —
handle, cached size, id and path — and the out-pointer unchanged. -/
theorem second_open_fails_unchanged (openResult : Except Unit Unit)
    (metadataLen : Except Unit Nat) (ctx : OsdpFile) (h : ctx.file.isSome = true)
    (file_id : Int) (sizePtr : Int) :
    raw_file_open openResult metadataLen ctx file_id sizePtr =
      some (-1, ctx, sizePtr) := by
  simp [raw_file_open, h]

theorem second_open_fails_unchanged_witness :
    raw_file_open (Except.ok ()) (Except.ok 2048) activeCtx 7 0 =
      some (-1, activeCtx, 0) :=
  second_open_fails_unchanged (Except.ok ()) (Except.ok 2048) activeCtx (by decide) 7 0

/-- C5: on every inactive context, an open whose requested identifier differs
from the context's id fails with the sentinel for every filesystem outcome
(the filesystem is never consulted) and leaves the context inactive and
untouched, the out-pointer included. -/
theorem open_id_mismatch_fails (openResult : Except Unit Unit)
    (metadataLen : Except Unit Nat) (ctx : OsdpFile) (h : ctx.file = none)
    (file_id : Int) (hne : file_id ≠ ctx.id) (sizePtr : Int) :
    raw_file_open openResult metadataLen ctx file_id sizePtr =
      some (-1, ctx, sizePtr) := by
  simp [raw_file_open, h, hne]

theorem open_id_mismatch_fails_witness :
    raw_file_open (Except.ok ()) (Except.ok 2048) (OsdpFile.new 7 "/tmp/fw.bin") 9 0 =
      some (-1, OsdpFile.new 7 "/tmp/fw.bin", 0) :=
  open_id_mismatch_fails (Except.ok ()) (Except.ok 2048) (OsdpFile.new 7 "/tmp/fw.bin")
    rfl 9 (by decide) 0

/-- C3 counterexample: on an inactive context with a matching id, when
`File::open` succeeds but the metadata query fails, the open callback panics
(`metadata().unwrap()`, modelled as `none`) instead of reporting the error
sentinel — so not every filesystem failure encountered during open is
reported as the sentinel. -/
theorem open_metadata_failure_panics :
    raw_file_open (Except.ok ()) (Except.error ()) (OsdpFile.new 7 "/tmp/fw.bin") 7 0 =
      none := by
  decide

/-- C3 (amended): a failure of the `File::open` call itself on an inactive
context is reported as the sentinel for every metadata outcome, never a
panic, and leaves the context — handle still absent, cached size untouched —
and the out-pointer unchanged. -/
theorem open_failure_leaves_context_unchanged (metadataLen : Except Unit Nat)
    (ctx : OsdpFile) (h : ctx.file = none) (file_id : Int) (sizePtr : Int) :
    raw_file_open (Except.error ()) metadataLen ctx file_id sizePtr =
      some (-1, ctx, sizePtr) := by
  by_cases hid : file_id = ctx.id <;> simp [raw_file_open, h, hid]

theorem open_failure_leaves_context_unchanged_witness :
    raw_file_open (Except.error ()) (Except.ok 2048) (OsdpFile.new 7 "/tmp/fw.bin") 7 0 =
      some (-1, OsdpFile.new 7 "/tmp/fw.bin", 0) :=
  open_failure_leaves_context_unchanged (Except.ok 2048) (OsdpFile.new 7 "/tmp/fw.bin")
    rfl 7 0

/-- C1: at the failing input — an open context, a read of 16 bytes at offset
0 whose positional read fails — the bridge still runs
`copy_nonoverlapping(read_buf, buf, len as usize)` with `len = -1`, i.e. with
count `(-1) as usize = 2^64 - 1`: a wildly out-of-bounds copy into the
caller's buffer (undefined behaviour, modelled as `none`), contradicting the
claim that no bytes are copied when the positional read fails. -/
theorem read_error_copies_out_of_bounds :
    raw_file_read failOps activeCtx (List.replicate 16 0) 16 0 = none ∧
    toU64 (-1) = 2 ^ 64 - 1 := by
  exact ⟨by decide, by decide⟩

/-- C2 counterexample: a request for offset `2^31` reaches the bridge as the
wrapped `i32` value `-2^31`, and the write does not fail with any overflow
error before touching the filesystem: with a working filesystem it succeeds
(returns 0), with a failing one it returns the I/O sentinel — so the
filesystem call is attempted and its outcome decides the result — and the
offset is reinterpreted by sign-extension to `2^64 - 2^31`. -/
theorem write_large_offset_reaches_filesystem :
    raw_file_write (fileOps (List.replicate 4 0)) activeCtx [] 0 (-(2 ^ 31)) =
      some 0 ∧
    raw_file_write failOps activeCtx [] 0 (-(2 ^ 31)) = some (-1) ∧
    toU64 (-(2 ^ 31)) = 2 ^ 64 - 2 ^ 31 := by
  refine ⟨by decide, by decide, by decide⟩

/-- C2 (amended): the bridge performs no offset-range check at all: for every
open context and every in-capacity size, the write is exactly the positional
write of the copied bytes at the reinterpreted (sign-extended) offset
`toU64 offset` — there is no overflow-failure path before the filesystem
call. -/
theorem write_has_no_offset_check (fs : OffsetRead) (ctx : OsdpFile)
    (h : ctx.file.isSome = true) (buf : List Nat) (size offset : Int)
    (hsz : toU64 size ≤ buf.length) :
    raw_file_write fs ctx buf size offset =
      match fs.pwrite (buf.take (toU64 size)) (toU64 offset) with
      | .ok len => some (int32OfNat len)
      | .error _ => some (-1) := by
  cases hf : ctx.file with
  | none => rw [hf] at h; simp at h
  | some u =>
    simp only [raw_file_write, hf, Option.isNone_some, Bool.false_eq_true, if_false,
      copy_nonoverlapping, List.length_replicate, le_refl, and_true, hsz,
      if_true, List.drop_replicate, Nat.sub_self, List.replicate_zero,
      List.append_nil]

theorem write_has_no_offset_check_witness :
    raw_file_write failOps activeCtx [0, 0] 2 (-(2 ^ 31)) = some (-1) :=
  (write_has_no_offset_check failOps activeCtx (by decide) [0, 0] 2 (-(2 ^ 31))
    (by decide)).trans (by decide)

/-- C6: at the failing input — a context whose handle was produced by the
bridge's own open (read-only `File::open`) over file contents
`[1, 2, 3, 4, 5, 6]`, a write of `B = [9, 8]` at the in-bounds offset 2
followed by a read of 2 bytes at offset 2 — the write fails with the sentinel
`-1` (every positional write on a read-only handle fails), the file contents
are unchanged, and the read returns the old bytes `[3, 4]` instead of `B`:
the write-then-read round-trip never returns `B` on a bridge-opened
context. -/
theorem write_then_read_on_bridge_handle_fails :
    raw_file_write (readOnlyFileOps [1, 2, 3, 4, 5, 6]) activeCtx [9, 8] 2 2 =
      some (-1) ∧
    raw_file_read (readOnlyFileOps [1, 2, 3, 4, 5, 6]) activeCtx [0, 0, 0] 2 2 =
      some (2, [3, 4, 0]) := by
  exact ⟨by decide, by decide⟩

end Osdp
